import Mathlib

/-!
Shallow embedding of the spaced-repetition review scheduler
(`src/services/aiService.js`, `router.post('/:id/review')`, lines 339-399)
and the quiz grader (`src/unnamed/part_002`, `router.post('/:id/submit')`,
lines 129-198) of the education-backend server, together with proofs of the
specification claims about them.

Conventions of the embedding:
- JS numbers are modelled as exact rationals (`ℚ`); the routines only use
  `+ - * /`, `Math.max/min/ceil/floor` on small decimal constants, which the
  specification states in exact real arithmetic.
- Timestamps are modelled as integer day counts (the scheduler only ever adds
  whole days to `now`); `daysFromCivil` converts a calendar date to such a
  count for the concrete scenario claims.
- A JSON request field that may be absent (`undefined`) is an `Option`;
  JS truthiness of a string is "present and non-empty".
- Fallible route handlers return an outcome inductive whose error
  constructors are the distinct HTTP error responses of the handler.
-/

namespace EduServer

/-! ## Review scheduler (src/services/aiService.js lines 339-399) -/

/-- Flashcard row fields read by the review handler: `difficulty_level`
(continuous scalar) and `review_count` (integer). -/
structure Flashcard where
  difficulty_level : ℚ
  review_count : ℤ
  deriving DecidableEq

/-- Updated difficulty, mirroring the if-chain at aiService.js lines 363-374:
grade 1 gives `Math.max(1, d - 0.2)`, grade 2 leaves `d`, grade 3 gives
`Math.min(5, d + 0.3)`, anything else (including an absent grade, which is
not `=== 1/2/3`) gives `Math.min(5, d + 0.5)`. `d` is the flashcard's
difficulty before the review. -/
def newDifficulty (grade : Option ℤ) (d : ℚ) : ℚ :=
  if grade = some 1 then max 1 (d - 0.2)
  else if grade = some 2 then d
  else if grade = some 3 then min 5 (d + 0.3)
  else min 5 (d + 0.5)

/-- Interval in days until the next review, mirroring aiService.js lines
363-374: `Math.ceil(flashcard.difficulty_level * 2.5 / 1.5 / 0.8)` for grades
1/2/3 (always from the pre-update difficulty `d`), and 1 for any other
grade. -/
def intervalDays (grade : Option ℤ) (d : ℚ) : ℤ :=
  if grade = some 1 then ⌈d * 2.5⌉
  else if grade = some 2 then ⌈d * 1.5⌉
  else if grade = some 3 then ⌈d * 0.8⌉
  else 1

/-- Reward points for a review, aiService.js line 387:
`difficulty === 1 ? 3 : difficulty === 2 ? 2 : 1`. -/
def pointsForGrade (grade : Option ℤ) : ℤ :=
  if grade = some 1 then 3 else if grade = some 2 then 2 else 1

/-- Everything the review handler computes for one review: the flashcard
update written at aiService.js lines 381-384 (`difficulty_level`,
`review_count`, `last_reviewed = NOW()`, `next_review = now + intervalDays`)
and the points credited at lines 386-388. -/
structure ReviewResult where
  difficultyLevel : ℚ
  reviewCount : ℤ
  intervalDaysOut : ℤ
  nextReviewDay : ℤ
  lastReviewedDay : ℤ
  pointsEarned : ℤ
  deriving DecidableEq

/-- The review computation of aiService.js lines 356-388 for a flashcard that
was found. `grade` is the `difficulty` field of the request body (`none`
models an absent field); `nowDay` is `new Date()` as a day count. -/
def reviewFlashcard (grade : Option ℤ) (card : Flashcard) (nowDay : ℤ) : ReviewResult :=
  { difficultyLevel := newDifficulty grade card.difficulty_level
    reviewCount := card.review_count + 1
    intervalDaysOut := intervalDays grade card.difficulty_level
    nextReviewDay := nowDay + intervalDays grade card.difficulty_level
    lastReviewedDay := nowDay
    pointsEarned := pointsForGrade grade }

/-- Success payload of the review endpoint: the computed update plus the
user's point total after `UPDATE users SET points = points + ?`
(aiService.js line 388). -/
structure ReviewSuccess where
  result : ReviewResult
  userPointsAfter : ℤ
  deriving DecidableEq

/-- Outcome of the review endpoint: 404 when the ownership query returns no
row (aiService.js lines 350-352), otherwise success. -/
inductive ReviewOutcome where
  | notFound
  | ok (s : ReviewSuccess)
  deriving DecidableEq

/-- The review endpoint, aiService.js lines 339-399. `cardLookup` is the
result of the `SELECT ... WHERE id = ? AND user_id = ?` query; there is no
validation of the request body, so an absent grade flows into the final
else-branch of the algorithm. -/
def reviewEndpoint (cardLookup : Option Flashcard) (grade : Option ℤ)
    (nowDay : ℤ) (userPoints : ℤ) : ReviewOutcome :=
  match cardLookup with
  | none => .notFound
  | some card =>
    let r := reviewFlashcard grade card nowDay
    .ok ⟨r, userPoints + r.pointsEarned⟩

/-- Day count of a Gregorian calendar date (days since 1970-01-01), used to
state the concrete-date scenario; standard civil-from-days arithmetic. -/
def daysFromCivil (y m d : ℤ) : ℤ :=
  let y' := if m ≤ 2 then y - 1 else y
  let era := (if 0 ≤ y' then y' else y' - 399) / 400
  let yoe := y' - era * 400
  let doy := (153 * (if 2 < m then m - 3 else m + 9) + 2) / 5 + d - 1
  let doe := yoe * 365 + yoe / 4 - yoe / 100 + doy
  era * 146097 + doe - 719468

/-! ## Quiz grader (src/unnamed/part_002 lines 129-198) -/

/-- Quiz question row fields read by the submit handler
(`SELECT id, correct_answer, points ...`). The point value is a natural
number (the schema declares `points INT DEFAULT 1`, and every insertion path
stores a positive count). -/
structure Question where
  id : ℤ
  correct_answer : String
  points : ℕ
  deriving DecidableEq

/-- ASCII model of JS `String.prototype.toLowerCase`. -/
def jsLower (s : String) : String :=
  ⟨s.data.map Char.toLower⟩

/-- Characters removed by JS `String.prototype.trim` (ASCII fragment). -/
def isJsWhitespace (c : Char) : Bool :=
  c = ' ' || c = '\t' || c = '\n' || c = '\r' || c = '\x0b' || c = '\x0c'

/-- Model of JS `String.prototype.trim`: strip whitespace from both ends. -/
def jsTrim (s : String) : String :=
  ⟨((s.data.dropWhile isJsWhitespace).reverse.dropWhile isJsWhitespace).reverse⟩

/-- Per-question correctness test of part_002 line 153:
`userAnswer && userAnswer.toString().toLowerCase().trim() ===
q.correct_answer.toString().toLowerCase().trim()`. An absent answer
(`undefined`) and the empty string are falsy, so they short-circuit to
incorrect before any comparison happens. -/
def isCorrectAnswer (userAnswer : Option String) (correctAnswer : String) : Bool :=
  match userAnswer with
  | none => false
  | some a =>
    if a = "" then false
    else decide (jsTrim (jsLower a) = jsTrim (jsLower correctAnswer))

/-- One element of the `results` array built at part_002 lines 160-165. -/
structure QuestionResult where
  questionId : ℤ
  correct : Bool
  correctAnswer : String
  userAnswer : Option String
  deriving DecidableEq

/-- Aggregates of the grading loop at part_002 lines 146-168: the `results`
array, the three accumulators, and the score
`totalPoints > 0 ? (earnedPoints / totalPoints) * 100 : 0`. -/
structure GradeOutput where
  results : List QuestionResult
  correctAnswers : ℕ
  totalPoints : ℕ
  earnedPoints : ℕ
  score : ℚ
  deriving DecidableEq

/-- Result record for the question at position `i` (part_002 lines 150-165):
the submitted answer is looked up by position, `answers[index]`, which is
`undefined` past the end of the answer list. -/
def gradeQuestion (answers : List String) (i : ℕ) (q : Question) : QuestionResult :=
  { questionId := q.id
    correct := isCorrectAnswer (answers.get? i) q.correct_answer
    correctAnswer := q.correct_answer
    userAnswer := answers.get? i }

/-- The grading loop of part_002 lines 146-168, with the three mutable
accumulators (`totalPoints`, `earnedPoints`, `correctAnswers`) expressed as
sums over the question list. -/
def gradeQuiz (questions : List Question) (answers : List String) : GradeOutput :=
  let correctAt := fun (iq : ℕ × Question) =>
    isCorrectAnswer (answers.get? iq.1) iq.2.correct_answer
  let totalPoints := (questions.map (·.points)).sum
  let earnedPoints := (((questions.enum).filter correctAt).map (·.2.points)).sum
  { results := (questions.enum).map fun iq => gradeQuestion answers iq.1 iq.2
    correctAnswers := ((questions.enum).filter correctAt).length
    totalPoints := totalPoints
    earnedPoints := earnedPoints
    score := if 0 < totalPoints then ((earnedPoints : ℚ) / (totalPoints : ℚ)) * 100 else 0 }

/-- Numeric value of JS `x.toFixed(2)` (part_002 line 187): the exact score
rounded to the nearest hundredth, ties away from zero for the non-negative
scores at hand. -/
def jsToFixed2 (x : ℚ) : ℚ :=
  (⌊x * 100 + 1 / 2⌋ : ℚ) / 100

/-- Quiz row; only its existence and `course_id` are used by the submit
handler. -/
structure Quiz where
  id : ℤ
  deriving DecidableEq

/-- Values the submit handler INSERTs into `quiz_attempts`
(part_002 lines 171-174): the exact, unrounded score, the question count,
the number of correct answers, and `timeTakenSeconds || 0`. -/
structure AttemptRecord where
  score : ℚ
  total_questions : ℕ
  correct_answers : ℕ
  time_taken_seconds : ℤ
  deriving DecidableEq

/-- Values the submit handler INSERTs into `study_sessions`
(part_002 lines 181-184). -/
structure StudySession where
  duration_minutes : ℤ
  points_earned : ℤ
  deriving DecidableEq

/-- JSON response body of the submit handler (part_002 lines 186-193); its
`score` field is the string `score.toFixed(2)`, modelled by its numeric
value. -/
structure SubmitResponse where
  score : ℚ
  correctAnswers : ℕ
  totalQuestions : ℕ
  earnedPoints : ℕ
  totalPoints : ℕ
  results : List QuestionResult
  deriving DecidableEq

/-- Success payload of the submit endpoint: the response, the two inserted
records, the points credited (`Math.floor(score / 10)`, line 177), and the
user's point total after the `UPDATE users` at line 178. -/
structure SubmitSuccess where
  response : SubmitResponse
  attempt : AttemptRecord
  pointsEarned : ℤ
  session : StudySession
  userPointsAfter : ℤ
  deriving DecidableEq

/-- Outcome of the submit endpoint: 404 when the quiz query returns no row
(part_002 lines 136-138), otherwise success — an empty question set is not
checked for and proceeds through grading. -/
inductive SubmitOutcome where
  | quizNotFound
  | ok (s : SubmitSuccess)
  deriving DecidableEq

/-- The submit endpoint, part_002 lines 129-198. `quizLookup` is the result
of the quiz query, `questions` the ordered question rows, `answers` the
request body's answer array, `timeTakenSeconds` its optional time field. -/
def submitEndpoint (quizLookup : Option Quiz) (questions : List Question)
    (answers : List String) (timeTakenSeconds : Option ℤ) (userPoints : ℤ) :
    SubmitOutcome :=
  match quizLookup with
  | none => .quizNotFound
  | some _ =>
    let g := gradeQuiz questions answers
    let t := timeTakenSeconds.getD 0
    let pe : ℤ := ⌊g.score / 10⌋
    .ok { response := ⟨jsToFixed2 g.score, g.correctAnswers, questions.length,
                       g.earnedPoints, g.totalPoints, g.results⟩
          attempt := ⟨g.score, questions.length, g.correctAnswers, t⟩
          pointsEarned := pe
          session := ⟨⌈(t : ℚ) / 60⌉, pe⟩
          userPointsAfter := userPoints + pe }

/-! ## Helper lemmas -/

/-- Ceiling of a rational pinned between explicit bounds. -/
lemma ceil_eq_of {x : ℚ} {n : ℤ} (h1 : (n : ℚ) - 1 < x) (h2 : x ≤ n) : ⌈x⌉ = n :=
  Int.ceil_eq_iff.mpr ⟨h1, h2⟩

/-- Floor of a rational pinned between explicit bounds. -/
lemma floor_eq_of {x : ℚ} {n : ℤ} (h1 : (n : ℚ) ≤ x) (h2 : x < n + 1) : ⌊x⌋ = n :=
  Int.floor_eq_iff.mpr ⟨h1, h2⟩

/-- Fallback branch of the difficulty update, reached by every grade other
than 1, 2, 3 (including an absent one). -/
lemma newDifficulty_other {g : Option ℤ} (h1 : g ≠ some 1) (h2 : g ≠ some 2)
    (h3 : g ≠ some 3) (d : ℚ) : newDifficulty g d = min 5 (d + 0.5) := by
  unfold newDifficulty
  rw [if_neg h1, if_neg h2, if_neg h3]

/-- Fallback branch of the interval computation. -/
lemma intervalDays_other {g : Option ℤ} (h1 : g ≠ some 1) (h2 : g ≠ some 2)
    (h3 : g ≠ some 3) (d : ℚ) : intervalDays g d = 1 := by
  unfold intervalDays
  rw [if_neg h1, if_neg h2, if_neg h3]

/-- Fallback branch of the reward-point computation. -/
lemma pointsForGrade_other {g : Option ℤ} (h1 : g ≠ some 1) (h2 : g ≠ some 2) :
    pointsForGrade g = 1 := by
  unfold pointsForGrade
  rw [if_neg h1, if_neg h2]

/-- The result array of the grader is the per-question record at each
position of the question list. -/
lemma gradeQuiz_results_get (questions : List Question) (answers : List String)
    (i : ℕ) :
    (gradeQuiz questions answers).results.get? i =
      (questions.get? i).map fun q => gradeQuestion answers i q := by
  show ((questions.enum).map fun iq => gradeQuestion answers iq.1 iq.2).get? i = _
  rw [List.get?_map, List.get?_enum]
  cases questions.get? i <;> rfl

/-- Score projection of the grader, as the source's conditional expression. -/
lemma gradeQuiz_score (questions : List Question) (answers : List String) :
    (gradeQuiz questions answers).score =
      if 0 < (gradeQuiz questions answers).totalPoints then
        ((gradeQuiz questions answers).earnedPoints : ℚ) /
          ((gradeQuiz questions answers).totalPoints : ℚ) * 100
      else 0 := rfl

/-- The score is never negative: both branches of its definition are. -/
lemma gradeQuiz_score_nonneg (questions : List Question) (answers : List String) :
    0 ≤ (gradeQuiz questions answers).score := by
  rw [gradeQuiz_score]
  split_ifs
  · positivity
  · exact le_refl 0

/-- Multiplying the two-decimal rendering back by 100 recovers the rounded
integer numerator. -/
lemma jsToFixed2_mul_100 (x : ℚ) : jsToFixed2 x * 100 = (⌊x * 100 + 1 / 2⌋ : ℚ) := by
  unfold jsToFixed2
  rw [div_mul_cancel₀]
  norm_num

/-! ## Claims -/

/-- Claim C1: for every review with current difficulty d, the scheduler
produces exactly newDifficulty = max(1, d - 0.2) and intervalDays =
ceil(d * 2.5) for grade 1, d and ceil(d * 1.5) for grade 2,
min(5, d + 0.3) and ceil(d * 0.8) for grade 3, min(5, d + 0.5) and 1 for any
other grade; the review count increases by exactly 1; and the reward points
credited to the user are 3 for grade 1, 2 for grade 2, and 1 otherwise. -/
theorem review_update_formulas (g : Option ℤ) (card : Flashcard) (nowDay p : ℤ) :
    (reviewFlashcard g card nowDay).reviewCount = card.review_count + 1 ∧
    (g = some 1 →
      (reviewFlashcard g card nowDay).difficultyLevel = max 1 (card.difficulty_level - 0.2) ∧
      (reviewFlashcard g card nowDay).intervalDaysOut = ⌈card.difficulty_level * 2.5⌉ ∧
      (reviewFlashcard g card nowDay).pointsEarned = 3) ∧
    (g = some 2 →
      (reviewFlashcard g card nowDay).difficultyLevel = card.difficulty_level ∧
      (reviewFlashcard g card nowDay).intervalDaysOut = ⌈card.difficulty_level * 1.5⌉ ∧
      (reviewFlashcard g card nowDay).pointsEarned = 2) ∧
    (g = some 3 →
      (reviewFlashcard g card nowDay).difficultyLevel = min 5 (card.difficulty_level + 0.3) ∧
      (reviewFlashcard g card nowDay).intervalDaysOut = ⌈card.difficulty_level * 0.8⌉ ∧
      (reviewFlashcard g card nowDay).pointsEarned = 1) ∧
    (g ≠ some 1 → g ≠ some 2 → g ≠ some 3 →
      (reviewFlashcard g card nowDay).difficultyLevel = min 5 (card.difficulty_level + 0.5) ∧
      (reviewFlashcard g card nowDay).intervalDaysOut = 1 ∧
      (reviewFlashcard g card nowDay).pointsEarned = 1) ∧
    (∃ s, reviewEndpoint (some card) g nowDay p = .ok s ∧
      s.userPointsAfter = p + (reviewFlashcard g card nowDay).pointsEarned) := by
  refine ⟨rfl, fun h => ?_, fun h => ?_, fun h => ?_, fun h1 h2 h3 => ?_, ⟨_, rfl, rfl⟩⟩
  · subst h
    exact ⟨rfl, rfl, rfl⟩
  · subst h
    refine ⟨?_, ?_, ?_⟩ <;>
      simp [reviewFlashcard, newDifficulty, intervalDays, pointsForGrade]
  · subst h
    refine ⟨?_, ?_, ?_⟩ <;>
      simp [reviewFlashcard, newDifficulty, intervalDays, pointsForGrade]
  · exact ⟨newDifficulty_other h1 h2 h3 _, intervalDays_other h1 h2 h3 _,
      pointsForGrade_other h1 h2⟩

/-- Witness for C1: the formulas evaluated at a grade-1 and a grade-4 review
of a difficulty-2 card. -/
theorem review_update_formulas_check :
    (reviewFlashcard (some 1) ⟨2, 3⟩ 0).difficultyLevel = max 1 (2 - 0.2) ∧
    (reviewFlashcard (some 1) ⟨2, 3⟩ 0).pointsEarned = 3 ∧
    (reviewFlashcard (some 4) ⟨2, 3⟩ 0).intervalDaysOut = 1 := by
  obtain ⟨-, hg1, -, -, hother, -⟩ := review_update_formulas (some 1) ⟨2, 3⟩ 0 0
  obtain ⟨-, -, -, -, hother4, -⟩ := review_update_formulas (some 4) ⟨2, 3⟩ 0 0
  obtain ⟨hd, -, hp⟩ := hg1 rfl
  obtain ⟨-, hi, -⟩ := hother4 (by decide) (by decide) (by decide)
  exact ⟨hd, hp, hi⟩

/-- Claim C2: for grades 1, 2, 3 the interval is computed from the
flashcard's pre-update difficulty, never from the newly adjusted one; at
difficulty 2.1 and grade 1 the two disagree (ceil(2.1 * 2.5) = 6 but
ceil(1.9 * 2.5) = 5). -/
theorem interval_from_preupdate_difficulty (card : Flashcard) (nowDay : ℤ) :
    (reviewFlashcard (some 1) card nowDay).intervalDaysOut =
      ⌈card.difficulty_level * 2.5⌉ ∧
    (reviewFlashcard (some 2) card nowDay).intervalDaysOut =
      ⌈card.difficulty_level * 1.5⌉ ∧
    (reviewFlashcard (some 3) card nowDay).intervalDaysOut =
      ⌈card.difficulty_level * 0.8⌉ ∧
    (reviewFlashcard (some 1) ⟨2.1, 0⟩ nowDay).intervalDaysOut ≠
      ⌈(reviewFlashcard (some 1) ⟨2.1, 0⟩ nowDay).difficultyLevel * 2.5⌉ := by
  refine ⟨?_, ?_, ?_, ?_⟩
  · simp [reviewFlashcard, intervalDays]
  · simp [reviewFlashcard, intervalDays]
  · simp [reviewFlashcard, intervalDays]
  · have hd : (reviewFlashcard (some 1) ⟨2.1, 0⟩ nowDay).difficultyLevel = 1.9 := by
      simp only [reviewFlashcard, newDifficulty, if_pos rfl]
      rw [max_eq_right] <;> norm_num
    have hi : (reviewFlashcard (some 1) ⟨2.1, 0⟩ nowDay).intervalDaysOut = 6 := by
      simp only [reviewFlashcard, intervalDays, if_pos rfl]
      exact ceil_eq_of (by norm_num) (by norm_num)
    rw [hd, hi, ceil_eq_of (x := (1.9 : ℚ) * 2.5) (n := 5) (by norm_num) (by norm_num)]
    decide

/-- Claim C9: at difficulty 2.0, review count 3, grade 1 and now =
2024-01-01, the scheduler yields difficulty 1.8, review count 4, interval 5
days, next review 2024-01-06 and 3 reward points. -/
theorem review_scenario_2024_01_01 :
    (reviewFlashcard (some 1) ⟨2, 3⟩ (daysFromCivil 2024 1 1)).difficultyLevel = 1.8 ∧
    (reviewFlashcard (some 1) ⟨2, 3⟩ (daysFromCivil 2024 1 1)).reviewCount = 4 ∧
    (reviewFlashcard (some 1) ⟨2, 3⟩ (daysFromCivil 2024 1 1)).intervalDaysOut = 5 ∧
    (reviewFlashcard (some 1) ⟨2, 3⟩ (daysFromCivil 2024 1 1)).nextReviewDay =
      daysFromCivil 2024 1 6 ∧
    (reviewFlashcard (some 1) ⟨2, 3⟩ (daysFromCivil 2024 1 1)).pointsEarned = 3 := by
  have hi : (reviewFlashcard (some 1) (⟨2, 3⟩ : Flashcard) (daysFromCivil 2024 1 1)).intervalDaysOut = 5 := by
    simp only [reviewFlashcard, intervalDays, if_pos rfl]
    exact ceil_eq_of (by norm_num) (by norm_num)
  refine ⟨?_, rfl, hi, ?_, rfl⟩
  · simp only [reviewFlashcard, newDifficulty, if_pos rfl]
    rw [max_eq_right] <;> norm_num
  · show daysFromCivil 2024 1 1 + intervalDays (some 1) (2 : ℚ) = daysFromCivil 2024 1 6
    have : intervalDays (some 1) (2 : ℚ) = 5 := hi
    rw [this]
    decide

/-- Claim C5: a difficulty in [1,5] stays in [1,5] after a review with any
grade, the interval is positive (it is an integer by type), and the updated
next-review day is at least the updated last-reviewed day. -/
theorem review_preserves_invariants (g : Option ℤ) (card : Flashcard) (nowDay : ℤ)
    (h1 : 1 ≤ card.difficulty_level) (h2 : card.difficulty_level ≤ 5) :
    1 ≤ (reviewFlashcard g card nowDay).difficultyLevel ∧
    (reviewFlashcard g card nowDay).difficultyLevel ≤ 5 ∧
    0 < (reviewFlashcard g card nowDay).intervalDaysOut ∧
    (reviewFlashcard g card nowDay).lastReviewedDay ≤
      (reviewFlashcard g card nowDay).nextReviewDay := by
  have hd : 0 < card.difficulty_level := lt_of_lt_of_le one_pos h1
  have hpos : 0 < (reviewFlashcard g card nowDay).intervalDaysOut := by
    show 0 < intervalDays g card.difficulty_level
    unfold intervalDays
    split_ifs
    · exact Int.ceil_pos.mpr (by positivity)
    · exact Int.ceil_pos.mpr (by positivity)
    · exact Int.ceil_pos.mpr (by positivity)
    · exact one_pos
  refine ⟨?_, ?_, hpos, ?_⟩
  · show 1 ≤ newDifficulty g card.difficulty_level
    unfold newDifficulty
    split_ifs
    · exact le_max_left 1 _
    · exact h1
    · exact le_min (by norm_num) (by linarith)
    · exact le_min (by norm_num) (by linarith)
  · show newDifficulty g card.difficulty_level ≤ 5
    unfold newDifficulty
    split_ifs
    · exact max_le (by norm_num) (by linarith)
    · exact h2
    · exact min_le_left 5 _
    · exact min_le_left 5 _
  · show nowDay ≤ nowDay + intervalDays g card.difficulty_level
    exact le_add_of_nonneg_right (le_of_lt hpos)

/-- Witness for C5: the invariants at a grade-3 review of a difficulty-2.5
card. -/
theorem review_preserves_invariants_check :
    1 ≤ (reviewFlashcard (some 3) ⟨2.5, 7⟩ 0).difficultyLevel ∧
    (reviewFlashcard (some 3) ⟨2.5, 7⟩ 0).difficultyLevel ≤ 5 ∧
    0 < (reviewFlashcard (some 3) ⟨2.5, 7⟩ 0).intervalDaysOut ∧
    (reviewFlashcard (some 3) ⟨2.5, 7⟩ 0).lastReviewedDay ≤
      (reviewFlashcard (some 3) ⟨2.5, 7⟩ 0).nextReviewDay :=
  review_preserves_invariants (some 3) ⟨2.5, 7⟩ 0 (by norm_num) (by norm_num)

/-- Counterexample to claim C3 as stated: with submitted answer "" and stored
correct answer "", the normalized strings are equal, yet the grader marks the
question incorrect (the empty string is falsy and short-circuits the
comparison), so "correct iff lowercase(trim(a)) = lowercase(trim(c))" fails. -/
theorem grading_iff_counterexample :
    isCorrectAnswer (some "") "" = false ∧
    jsTrim (jsLower "") = jsTrim (jsLower "") ∧
    (gradeQuiz [⟨1, "", 1⟩] [""]).correctAnswers = 0 := by
  refine ⟨rfl, rfl, ?_⟩
  have h : isCorrectAnswer (some "") "" = false := rfl
  simp [gradeQuiz, List.enum, List.enumFrom, List.filter_cons, h]

/-- Claim C3 as amended: a question is marked correct iff its submitted
answer is present, non-empty, and equal to the stored correct answer after
lowercasing and trimming; an empty or absent answer is graded incorrect (the
grader is a total function, so this is never an error). -/
theorem grading_normalized_equality (questions : List Question)
    (answers : List String) (i : ℕ) (q : Question)
    (h : questions.get? i = some q) :
    ∃ r : QuestionResult, (gradeQuiz questions answers).results.get? i = some r ∧
      r.correct = isCorrectAnswer (answers.get? i) q.correct_answer ∧
      (r.correct = true ↔ ∃ a, answers.get? i = some a ∧ a ≠ "" ∧
        jsTrim (jsLower a) = jsTrim (jsLower q.correct_answer)) ∧
      ((answers.get? i = none ∨ answers.get? i = some "") → r.correct = false) := by
  refine ⟨gradeQuestion answers i q, by rw [gradeQuiz_results_get, h]; rfl, rfl, ?_, ?_⟩
  · show isCorrectAnswer (answers.get? i) q.correct_answer = true ↔ _
    unfold isCorrectAnswer
    cases answers.get? i with
    | none => simp
    | some a =>
      by_cases ha : a = ""
      · subst ha
        simp
      · simp [ha]
  · rintro (ha | ha) <;>
      (simp only [List.get?_eq_getElem?] at ha; simp [gradeQuestion, isCorrectAnswer, ha])

/-- Witness for C3's amended theorem: with stored answer "Paris" and
submitted answer " paris ", the grader's verdict is governed by the
normalized comparison. -/
theorem grading_normalized_equality_check :
    ∃ r : QuestionResult,
      (gradeQuiz [⟨1, "Paris", 1⟩] [" paris "]).results.get? 0 = some r ∧
      r.correct = isCorrectAnswer ([" paris "].get? 0) "Paris" ∧
      (r.correct = true ↔ ∃ a, [" paris "].get? 0 = some a ∧ a ≠ "" ∧
        jsTrim (jsLower a) = jsTrim (jsLower "Paris")) ∧
      (([" paris "].get? 0 = none ∨ [" paris "].get? 0 = some "") →
        r.correct = false) :=
  grading_normalized_equality [⟨1, "Paris", 1⟩] [" paris "] 0 ⟨1, "Paris", 1⟩ rfl

/-- Claim C4: a submission whose questions total zero points (in particular
an empty question set) scores 0 — the division is never taken and the grader
is a total function — and otherwise the score is earned/total * 100; the
externally visible score is a multiple of 1/100, a two-decimal value. -/
theorem score_zero_total_points (questions : List Question) (answers : List String) :
    ((gradeQuiz questions answers).totalPoints = 0 →
      (gradeQuiz questions answers).score = 0) ∧
    ((gradeQuiz questions answers).totalPoints ≠ 0 →
      (gradeQuiz questions answers).score =
        ((gradeQuiz questions answers).earnedPoints : ℚ) /
          ((gradeQuiz questions answers).totalPoints : ℚ) * 100) ∧
    (gradeQuiz [] answers).score = 0 ∧
    (∃ n : ℤ, jsToFixed2 (gradeQuiz questions answers).score * 100 = (n : ℚ)) := by
  refine ⟨fun h => ?_, fun h => ?_, rfl, ⟨_, jsToFixed2_mul_100 _⟩⟩
  · rw [gradeQuiz_score, if_neg]
    omega
  · rw [gradeQuiz_score, if_pos (Nat.pos_of_ne_zero h)]

/-- Witness for C4: the empty quiz scores 0 and a one-question quiz takes the
ratio branch. -/
theorem score_zero_total_points_check :
    (gradeQuiz [] []).score = 0 ∧
    (gradeQuiz [⟨1, "a", 2⟩] ["a"]).score =
      ((gradeQuiz [⟨1, "a", 2⟩] ["a"]).earnedPoints : ℚ) /
        ((gradeQuiz [⟨1, "a", 2⟩] ["a"]).totalPoints : ℚ) * 100 :=
  ⟨(score_zero_total_points [] []).1 rfl,
    (score_zero_total_points [⟨1, "a", 2⟩] ["a"]).2.1 (by decide)⟩

/-- Claim C6: every quiz submission credits the user with exactly
floor(score / 10) points; at scores 95, 100 and 0 this is 9, 10 and 0. -/
theorem quiz_reward_is_floor_score_div_ten (qz : Quiz) (questions : List Question)
    (answers : List String) (t : Option ℤ) (p : ℤ) :
    (∃ s, submitEndpoint (some qz) questions answers t p = .ok s ∧
      s.pointsEarned = ⌊s.attempt.score / 10⌋ ∧
      s.attempt.score = (gradeQuiz questions answers).score) ∧
    (⌊(95 : ℚ) / 10⌋ = 9 ∧ ⌊(100 : ℚ) / 10⌋ = 10 ∧ ⌊(0 : ℚ) / 10⌋ = 0) :=
  ⟨⟨_, rfl, rfl, rfl⟩,
    floor_eq_of (by norm_num) (by norm_num),
    floor_eq_of (by norm_num) (by norm_num),
    floor_eq_of (by norm_num) (by norm_num)⟩

/-- Counterexample to claim C7 as stated: a review request with no grade
field and a submission for an existing quiz with an empty question set are
both answered with a success outcome (the fallback grade branch, resp. the
zero-score policy) — neither is reported as a validation or not-found
error. -/
theorem distinct_error_outcomes_counterexample :
    (∃ s, reviewEndpoint (some ⟨2, 0⟩) none 0 0 = .ok s ∧
      s.result.difficultyLevel = 2.5 ∧ s.result.intervalDaysOut = 1 ∧
      s.result.pointsEarned = 1) ∧
    reviewEndpoint (some ⟨2, 0⟩) none 0 0 ≠ .notFound ∧
    (∃ s, submitEndpoint (some ⟨1⟩) [] ["x"] none 0 = .ok s ∧
      s.attempt.score = 0) ∧
    submitEndpoint (some ⟨1⟩) [] ["x"] none 0 ≠ .quizNotFound := by
  refine ⟨⟨_, rfl, ?_, ?_, rfl⟩, by simp [reviewEndpoint], ⟨_, rfl, rfl⟩,
    by simp [submitEndpoint]⟩
  · show newDifficulty none 2 = 2.5
    rw [newDifficulty_other (g := none) (by decide) (by decide) (by decide)]
    norm_num
  · show intervalDays none 2 = 1
    exact intervalDays_other (g := none) (by decide) (by decide) (by decide) _

/-- Claim C7 as amended: a missing flashcard or quiz is reported as a
distinct not-found outcome; a review request without a grade is not an error
but is handled by the fallback ("again") branch; an answer list shorter than
the question count is not an error — the unanswered questions are graded
incorrect; an empty question set is not an error and falls under the
zero-total-points policy, scoring 0. -/
theorem distinct_and_defaulted_outcomes :
    (∀ (g : Option ℤ) (nowDay p : ℤ), reviewEndpoint none g nowDay p = .notFound) ∧
    (∀ (card : Flashcard) (nowDay p : ℤ), ∃ s,
      reviewEndpoint (some card) none nowDay p = .ok s ∧
      s.result.difficultyLevel = min 5 (card.difficulty_level + 0.5) ∧
      s.result.intervalDaysOut = 1) ∧
    (∀ (questions : List Question) (answers : List String) (t : Option ℤ) (p : ℤ),
      submitEndpoint none questions answers t p = .quizNotFound) ∧
    (∀ (qz : Quiz) (questions : List Question) (answers : List String)
      (t : Option ℤ) (p : ℤ) (i : ℕ) (q : Question),
      questions.get? i = some q → answers.length ≤ i →
      ∃ s r, submitEndpoint (some qz) questions answers t p = .ok s ∧
        s.response.results.get? i = some r ∧ r.correct = false) ∧
    (∀ (qz : Quiz) (answers : List String) (t : Option ℤ) (p : ℤ), ∃ s,
      submitEndpoint (some qz) [] answers t p = .ok s ∧ s.attempt.score = 0) := by
  refine ⟨fun g nowDay p => rfl, fun card nowDay p => ?_, fun _ _ _ _ => rfl,
    fun qz questions answers t p i q hq hlen => ?_, fun qz answers t p => ⟨_, rfl, rfl⟩⟩
  · refine ⟨_, rfl, ?_, ?_⟩
    · show newDifficulty none card.difficulty_level = _
      exact newDifficulty_other (g := none) (by decide) (by decide) (by decide) _
    · show intervalDays none card.difficulty_level = 1
      exact intervalDays_other (g := none) (by decide) (by decide) (by decide) _
  · have hnone : answers.get? i = none := List.get?_eq_none.mpr hlen
    refine ⟨_, gradeQuestion answers i q, rfl, ?_, ?_⟩
    · show (gradeQuiz questions answers).results.get? i = _
      rw [gradeQuiz_results_get, hq]
      rfl
    · show isCorrectAnswer (answers.get? i) q.correct_answer = false
      rw [hnone]
      rfl

/-- Witness for C7's amended theorem: a two-question quiz submitted with a
single answer grades the second question incorrect rather than erroring. -/
theorem distinct_and_defaulted_outcomes_check :
    ∃ s r, submitEndpoint (some ⟨1⟩) [⟨1, "a", 1⟩, ⟨2, "b", 1⟩] ["a"] none 0 = .ok s ∧
      s.response.results.get? 1 = some r ∧ r.correct = false :=
  distinct_and_defaulted_outcomes.2.2.2.1 ⟨1⟩ [⟨1, "a", 1⟩, ⟨2, "b", 1⟩] ["a"]
    none 0 1 ⟨2, "b", 1⟩ rfl (by decide)

/-- Claim C8: neither routine ever decrements the user's point total — a
review credits 1, 2 or 3 points and a submission credits
floor(score / 10) ≥ 0, so the stored total never goes down. -/
theorem user_points_never_decrease :
    (∀ (g : Option ℤ) (card : Flashcard) (nowDay p : ℤ), ∃ s,
      reviewEndpoint (some card) g nowDay p = .ok s ∧
      (s.result.pointsEarned = 1 ∨ s.result.pointsEarned = 2 ∨
        s.result.pointsEarned = 3) ∧
      p ≤ s.userPointsAfter) ∧
    (∀ (qz : Quiz) (questions : List Question) (answers : List String)
      (t : Option ℤ) (p : ℤ), ∃ s,
      submitEndpoint (some qz) questions answers t p = .ok s ∧
      s.pointsEarned = ⌊s.attempt.score / 10⌋ ∧ 0 ≤ s.pointsEarned ∧
      p ≤ s.userPointsAfter) := by
  constructor
  · intro g card nowDay p
    have hmem : pointsForGrade g = 1 ∨ pointsForGrade g = 2 ∨ pointsForGrade g = 3 := by
      unfold pointsForGrade
      split_ifs <;> simp
    refine ⟨_, rfl, hmem, ?_⟩
    show p ≤ p + pointsForGrade g
    rcases hmem with h | h | h <;> rw [h] <;> omega
  · intro qz questions answers t p
    have hnn : 0 ≤ (⌊(gradeQuiz questions answers).score / 10⌋ : ℤ) :=
      Int.floor_nonneg.mpr
        (div_nonneg (gradeQuiz_score_nonneg questions answers) (by norm_num))
    refine ⟨_, rfl, rfl, hnn, ?_⟩
    show p ≤ p + ⌊(gradeQuiz questions answers).score / 10⌋
    omega

/-- Claim C10: the attempt record receives the exact unrounded score while
the response carries its two-decimal rendering, so whenever the exact score
is not a multiple of 1/100 the stored and reported values differ. -/
theorem stored_exact_reported_rounded (qz : Quiz) (questions : List Question)
    (answers : List String) (t : Option ℤ) (p : ℤ) :
    ∃ s, submitEndpoint (some qz) questions answers t p = .ok s ∧
      s.attempt.score = (gradeQuiz questions answers).score ∧
      s.response.score = jsToFixed2 s.attempt.score ∧
      ((¬ ∃ n : ℤ, s.attempt.score * 100 = (n : ℚ)) →
        s.attempt.score ≠ s.response.score) := by
  refine ⟨_, rfl, rfl, rfl, fun h he => ?_⟩
  refine h ⟨⌊(gradeQuiz questions answers).score * 100 + 1 / 2⌋, ?_⟩
  conv_lhs => rw [he]
  show jsToFixed2 (gradeQuiz questions answers).score * 100 = _
  rw [jsToFixed2_mul_100]

/-- Witness for C10: one of three one-point questions answered correctly
scores exactly 100/3, which the response necessarily reports differently
from the stored value. -/
theorem stored_exact_reported_rounded_check :
    ∃ s, submitEndpoint (some ⟨1⟩) [⟨1, "a", 1⟩, ⟨2, "b", 1⟩, ⟨3, "c", 1⟩]
        ["a", "x", "y"] none 0 = .ok s ∧
      s.attempt.score ≠ s.response.score := by
  obtain ⟨s, hs, h1, h2, h3⟩ := stored_exact_reported_rounded ⟨1⟩
    [⟨1, "a", 1⟩, ⟨2, "b", 1⟩, ⟨3, "c", 1⟩] ["a", "x", "y"] none 0
  have hscore : (gradeQuiz [⟨1, "a", 1⟩, ⟨2, "b", 1⟩, ⟨3, "c", 1⟩]
      ["a", "x", "y"]).score = 100 / 3 := by
    have e0 : isCorrectAnswer (some "a") "a" = true := by decide
    have e1 : isCorrectAnswer (some "x") "b" = false := by decide
    have e2 : isCorrectAnswer (some "y") "c" = false := by decide
    simp [gradeQuiz, List.enum, List.enumFrom, List.filter_cons, e0, e1, e2]
    norm_num
  refine ⟨s, hs, h3 ?_⟩
  rintro ⟨n, hn⟩
  rw [h1, hscore] at hn
  have h3n : (n : ℚ) * 3 = 10000 := by
    rw [← hn]
    ring
  have hz : n * 3 = (10000 : ℤ) := by exact_mod_cast h3n
  omega

end EduServer
